import Mathlib

/-!
Verification development for the BillAnalyzer repository.

The embedding models the Python sources of `bill_analyzer`
(`bill_inserter.py`, `ods_sheets.py`, `ods_rows.py`, `validators.py`,
`config.py`).  Helper modules `utils.py` and `ods_cells.py` are imported
by those files but are not part of the source tree; the definitions
standing in for them are marked `Modelled from the spec:` and follow the
specification's description of their behaviour.

Numeric values (Python floats holding money amounts) are modelled as
exact decimal numbers `Dec` (an integer mantissa scaled by a power of
ten).  Equality of two `Dec` values is value equality of the rationals
they denote, which matches Python float equality on the decimal amounts
the program manipulates.
-/

namespace BillAnalyzer

/-- Exact decimal number: the value `mant / 10 ^ exp`.  Stands in for the
Python `float` values the program uses for prices and totals. -/
structure Dec where
  mant : Int
  exp : Nat
deriving DecidableEq

/-- Value equality of two decimals (`float` equality `==` in Python):
cross-multiplied comparison of `mant / 10 ^ exp`. -/
def Dec.beq (a b : Dec) : Bool :=
  a.mant * 10 ^ b.exp == b.mant * 10 ^ a.exp

/-- Exact addition (`+` on Python floats, exact on decimals). -/
def Dec.add (a b : Dec) : Dec :=
  ⟨a.mant * 10 ^ b.exp + b.mant * 10 ^ a.exp, a.exp + b.exp⟩

/-- Exact subtraction. -/
def Dec.sub (a b : Dec) : Dec :=
  ⟨a.mant * 10 ^ b.exp - b.mant * 10 ^ a.exp, a.exp + b.exp⟩

/-- Exact multiplication. -/
def Dec.mul (a b : Dec) : Dec :=
  ⟨a.mant * b.mant, a.exp + b.exp⟩

/-- Absolute value (`abs` in Python). -/
def Dec.abs (a : Dec) : Dec :=
  ⟨|a.mant|, a.exp⟩

/-- Strict value comparison (`<` on Python floats). -/
def Dec.lt (a b : Dec) : Bool :=
  a.mant * 10 ^ b.exp < b.mant * 10 ^ a.exp

/-- The rational value a `Dec` denotes. -/
def Dec.toRat (a : Dec) : ℚ :=
  (a.mant : ℚ) / 10 ^ a.exp

/-! ### Python string primitives

Python `str.strip` / `str.lower` / `str.upper`, modelled over the
character list of a Lean `String`.  Case mapping is restricted to ASCII
letters, which covers every string the program compares (store names,
dates, numerals). -/

/-- ASCII lower-casing of one character (`str.lower`). -/
def pyLowerChar : Char → Char
  | 'A' => 'a' | 'B' => 'b' | 'C' => 'c' | 'D' => 'd' | 'E' => 'e' | 'F' => 'f'
  | 'G' => 'g' | 'H' => 'h' | 'I' => 'i' | 'J' => 'j' | 'K' => 'k' | 'L' => 'l'
  | 'M' => 'm' | 'N' => 'n' | 'O' => 'o' | 'P' => 'p' | 'Q' => 'q' | 'R' => 'r'
  | 'S' => 's' | 'T' => 't' | 'U' => 'u' | 'V' => 'v' | 'W' => 'w' | 'X' => 'x'
  | 'Y' => 'y' | 'Z' => 'z' | c => c

/-- ASCII upper-casing of one character (`str.upper`). -/
def pyUpperChar : Char → Char
  | 'a' => 'A' | 'b' => 'B' | 'c' => 'C' | 'd' => 'D' | 'e' => 'E' | 'f' => 'F'
  | 'g' => 'G' | 'h' => 'H' | 'i' => 'I' | 'j' => 'J' | 'k' => 'K' | 'l' => 'L'
  | 'm' => 'M' | 'n' => 'N' | 'o' => 'O' | 'p' => 'P' | 'q' => 'Q' | 'r' => 'R'
  | 's' => 'S' | 't' => 'T' | 'u' => 'U' | 'v' => 'V' | 'w' => 'W' | 'x' => 'X'
  | 'y' => 'Y' | 'z' => 'Z' | c => c

/-- ASCII whitespace recognised by `str.strip`. -/
def isPySpace (c : Char) : Bool :=
  c = ' ' ∨ c = '\t' ∨ c = '\n' ∨ c = '\r' ∨ c.toNat = 11 ∨ c.toNat = 12

/-- Remove leading and trailing whitespace from a character list. -/
def trimChars (l : List Char) : List Char :=
  ((l.dropWhile isPySpace).reverse.dropWhile isPySpace).reverse

/-- Python `str.strip()`. -/
def pyStrip (s : String) : String :=
  String.mk (trimChars s.data)

/-- Python `str.lower()` (ASCII). -/
def pyLower (s : String) : String :=
  String.mk (s.data.map pyLowerChar)

/-- Python `str.upper()` (ASCII). -/
def pyUpper (s : String) : String :=
  String.mk (s.data.map pyUpperChar)

/-! ### Number and date parsing -/

/-- Decimal digit value of a character, if it is a digit. -/
def digit? (c : Char) : Option Nat :=
  if 48 ≤ c.toNat ∧ c.toNat ≤ 57 then some (c.toNat - 48) else none

/-- Interpret a non-empty, all-digit character list as a natural number. -/
def digitsToNat? : List Char → Option Nat
  | [] => none
  | l => l.foldl (fun acc c => match acc, digit? c with
      | some n, some d => some (10 * n + d)
      | _, _ => none) (some 0)

/-- Consume a maximal run of digits, returning their value, how many
there were, and the rest of the input. -/
def takeDigits : List Char → Nat → Nat → Nat × Nat × List Char
  | [], acc, n => (acc, n, [])
  | c :: rest, acc, n =>
    match digit? c with
    | some d => takeDigits rest (10 * acc + d) (n + 1)
    | none => (acc, n, c :: rest)

/-- Python `float(s)` on a decimal string: optional surrounding
whitespace, optional sign, digits with an optional decimal point
(`"12"`, `"12.5"`, `".5"`, `"5."`).  Exponent notation, `inf` and `nan`
are not used by the program and are not modelled: any other input
yields `none` (a `ValueError` in Python). -/
def parseFloat? (s : String) : Option Dec :=
  let l := trimChars s.data
  let (neg, l) := match l with
    | '-' :: rest => (true, rest)
    | '+' :: rest => (false, rest)
    | rest => (false, rest)
  let (ip, ipLen, rest) := takeDigits l 0 0
  match rest with
  | [] =>
    if ipLen = 0 then none
    else some ⟨if neg then -(ip : Int) else (ip : Int), 0⟩
  | '.' :: rest2 =>
    let (fp, fpLen, rest3) := takeDigits rest2 0 0
    if rest3 ≠ [] then none
    else if ipLen = 0 ∧ fpLen = 0 then none
    else
      let m : Int := (ip * 10 ^ fpLen + fp : Nat)
      some ⟨if neg then -m else m, fpLen⟩
  | _ => none

/-- Modelled from the spec: `parse_date` from the missing `utils`
module.  Per §4.3 and the docstring of `_has_matching_date`, it
supports an ISO date (`YYYY-MM-DD`), tried first, and otherwise
day-first locale text (`DD.MM.YY` or `DD.MM.YYYY`), and returns the
date normalised to ISO `YYYY-MM-DD`; anything else yields `none`. -/
def parse_date (s : String) : Option String :=
  match s.data with
  | [y1, y2, y3, y4, '-', m1, m2, '-', d1, d2] =>
    match digitsToNat? [y1, y2, y3, y4], digitsToNat? [m1, m2], digitsToNat? [d1, d2] with
    | some _, some m, some d =>
      if 1 ≤ m ∧ m ≤ 12 ∧ 1 ≤ d ∧ d ≤ 31 then some s else none
    | _, _, _ => none
  | l =>
    match (l.splitOn '.').map digitsToNat? with
    | [some d, some m, some y] =>
      if 1 ≤ m ∧ m ≤ 12 ∧ 1 ≤ d ∧ d ≤ 31 ∧ (y < 100 ∨ (1000 ≤ y ∧ y ≤ 9999)) then
        let yr := if y < 100 then (if y < 70 then 2000 + y else 1900 + y) else y
        some (String.mk (Nat.toDigits 10 yr ++ '-' ::
          (if m < 10 then '0' :: Nat.toDigits 10 m else Nat.toDigits 10 m) ++ '-' ::
          (if d < 10 then '0' :: Nat.toDigits 10 d else Nat.toDigits 10 d)))
      else none
    | _ => none

/-- Modelled from the spec: the composition of `extract_price_number`,
`is_number` and `float(...)` from the missing `utils` module, as used by
`_find_total_in_bill_group`.  Per §4.4 step 2 it strips a leading
formula marker `=`, evaluates a simple `a*b` or `a+b` numeric
expression (decimal commas normalised to dots, as in the extraction
prompt's `"=4*0,59"`), and parses the result to a number; `none` means
the text does not parse to a number (the `is_number` guard fails). -/
def extract_total (s : String) : Option Dec :=
  let l := (trimChars s.data).map (fun c => if c = ',' then '.' else c)
  let l := match l with
    | '=' :: rest => rest
    | rest => rest
  if l.contains '*' then
    match (l.splitOn '*').map (fun p => parseFloat? (String.mk p)) with
    | [some a, some b] => some (a.mul b)
    | _ => none
  else if l.contains '+' then
    match (l.splitOn '+').map (fun p => parseFloat? (String.mk p)) with
    | [some a, some b] => some (a.add b)
    | _ => none
  else
    parseFloat? (String.mk l)

/-! ### Column indices (`config.py`) -/

def COL_DATE : Nat := 1
def COL_STORE : Nat := 2
def COL_ITEM : Nat := 3
def COL_PRICE : Nat := 4
def COL_TOTAL : Nat := 5

/-! ### Duplicate detection (`bill_inserter.py`)

The scanner functions only ever read `str(cell)` — the text content of
a cell — so for them a row is modelled as the list of its cells' text
contents. -/

/-- A sheet row as seen by the duplicate scanner: each cell's `str(...)`
text. -/
abbrev RowStr := List String

/-- `_BillSearchCriteria` (the dataclass; `epsilon` defaults to `0.01`
at every construction site). -/
structure BillSearchCriteria where
  date_str : String
  store_normalized : String
  total : Dec
  epsilon : Dec
deriving DecidableEq

/-- Run an early-exit scan over a list of indices: `f i = none` means
"continue", `f i = some r` means "stop with result `r`" (where `r` is
`none` for an aborting `return None` and `some j` for a found index).
Falling off the end yields `none`. -/
def scanHit {α : Type} (f : Nat → Option (Option α)) : List Nat → Option α
  | [] => none
  | i :: is =>
    match f i with
    | some r => r
    | none => scanHit f is

/-- `_has_matching_date`: does a row carry the target date? -/
def _has_matching_date (cells : RowStr) (target_date_str : String) : Bool :=
  if cells.length ≤ COL_DATE then false
  else
    let date_value := cells.getD COL_DATE ""
    if date_value = "" then false
    else
      match parse_date date_value with
      | none => false
      | some row_date => row_date = target_date_str

/-- The loop body of `_get_store_from_bill_start` at index `idx`. -/
def storeStep (rows : List RowStr) (start_idx : Nat) (store : String) (idx : Nat) :
    Option (Option Nat) :=
  let cells := rows.getD idx []
  if cells.length ≤ COL_STORE then none
  else if start_idx ≠ idx ∧ cells.getD COL_DATE "" ≠ "" then some none
  else
    let found_store := cells.getD COL_STORE ""
    if found_store = "" then none
    else if pyLower (pyStrip found_store) ≠ store then none
    else some (some idx)

/-- `_get_store_from_bill_start`: scan from `start_idx` for a row whose
store matches, aborting at a later row that carries a date. -/
def _get_store_from_bill_start (rows : List RowStr) (start_idx : Nat) (store : String) :
    Option Nat :=
  scanHit (storeStep rows start_idx store)
    (List.range' start_idx (rows.length - start_idx))

/-- The loop body of `_find_total_in_bill_group` at index `idx`. -/
def totalStep (rows : List RowStr) (start_idx : Nat) (total : Dec) (idx : Nat) :
    Option (Option Nat) :=
  let cells := rows.getD idx []
  if cells.length ≤ COL_TOTAL then none
  else if start_idx ≠ idx ∧ (cells.getD COL_DATE "" ≠ "" ∨ cells.getD COL_STORE "" ≠ "") then
    some none
  else
    let found_total := cells.getD COL_TOTAL ""
    if found_total = "" then none
    else
      match extract_total found_total with
      | none => none
      | some v => if Dec.beq v total then some (some idx) else some none

/-- `_find_total_in_bill_group`: scan from `start_idx` for a row whose
total equals the candidate's (exact float equality in the source),
aborting at a later row that carries a date or store, or at a parsed
total that differs. -/
def _find_total_in_bill_group (rows : List RowStr) (start_idx : Nat) (total : Dec) :
    Option Nat :=
  scanHit (totalStep rows start_idx total)
    (List.range' start_idx (rows.length - start_idx))

/-- `_check_bill_match`: tolerance-based comparison of a found bill
against the criteria (defined in the source but never invoked on the
duplicate-detection path). -/
def _check_bill_match (found_store : String) (found_total : Dec)
    (criteria : BillSearchCriteria) : Bool :=
  (found_store == criteria.store_normalized) &&
    Dec.lt (Dec.abs (Dec.sub found_total criteria.total)) criteria.epsilon

theorem scanHit_mem {α : Type} {f : Nat → Option (Option α)} {l : List Nat} {j : α}
    (h : scanHit f l = some j) : ∃ i ∈ l, f i = some (some j) := by
  induction l with
  | nil => simp [scanHit] at h
  | cons i is ih =>
    rw [scanHit] at h
    cases hf : f i with
    | some r =>
      simp only [hf] at h
      exact ⟨i, by simp, by rw [hf, h]⟩
    | none =>
      simp only [hf] at h
      obtain ⟨i', hi', hfi'⟩ := ih h
      exact ⟨i', by simp [hi'], hfi'⟩

theorem _get_store_from_bill_start_bounds {rows : List RowStr} {start_idx j : Nat}
    {store : String} (h : _get_store_from_bill_start rows start_idx store = some j) :
    start_idx ≤ j ∧ j < rows.length := by
  obtain ⟨i, hi, hfi⟩ := scanHit_mem h
  have hij : j = i := by
    unfold storeStep at hfi
    simp only [] at hfi
    split_ifs at hfi <;> simp_all
  subst hij
  have := List.mem_range'.mp hi
  omega

/-- The `while new_idx is None` loop of `_process_bill_row_for_duplicate`:
find a store match, then look for the total in its group; on a total
mismatch resume the store search just past the store match. -/
def dupLoop (rows : List RowStr) (criteria : BillSearchCriteria) (idx : Nat) : Bool :=
  match h : _get_store_from_bill_start rows idx criteria.store_normalized with
  | none => false
  | some j =>
    match _find_total_in_bill_group rows j criteria.total with
    | some _ => true
    | none => dupLoop rows criteria (j + 1)
termination_by rows.length - idx
decreasing_by
  have := _get_store_from_bill_start_bounds h
  omega

unseal dupLoop

/-- `_process_bill_row_for_duplicate`: check whether the group anchored
at row `idx` is a duplicate of the candidate. -/
def _process_bill_row_for_duplicate (rows : List RowStr) (idx : Nat)
    (criteria : BillSearchCriteria) : Bool :=
  let cells := rows.getD idx []
  if _has_matching_date cells criteria.date_str then dupLoop rows criteria idx
  else false

/-- The per-row search loop of `_check_duplicate_bill` over one sheet's
rows. -/
def _check_duplicate_in_sheet (rows : List RowStr) (criteria : BillSearchCriteria) : Bool :=
  (List.range rows.length).any fun idx => _process_bill_row_for_duplicate rows idx criteria

/-- English month abbreviations as produced by `strftime("%b")` in the
C locale. -/
def month_abbr : Nat → String
  | 1 => "Jan" | 2 => "Feb" | 3 => "Mar" | 4 => "Apr" | 5 => "May" | 6 => "Jun"
  | 7 => "Jul" | 8 => "Aug" | 9 => "Sep" | 10 => "Oct" | 11 => "Nov" | 12 => "Dec"
  | _ => ""

/-- Month number of an ISO `YYYY-MM-DD` string. -/
def isoMonth (iso : String) : Nat :=
  match digitsToNat? ((iso.data.drop 5).take 2) with
  | some m => m
  | none => 0

/-- Two-digit year of an ISO `YYYY-MM-DD` string (`strftime("%y")`). -/
def isoYY (iso : String) : String :=
  String.mk ((iso.data.drop 2).take 2)

/-- Sheet name for a date: `f"{month} {year}"` with abbreviated month
and two-digit year, as built in `_check_duplicate_bill` and
`_find_target_sheet_and_row`. -/
def sheet_name_of (iso : String) : String :=
  month_abbr (isoMonth iso) ++ " " ++ isoYY iso

/-- `_check_duplicate_bill` on a document whose sheets are given as
(name, rows) pairs.  `none` models the exception `dparser.parse` raises
on an unparsable candidate date; `some b` is the boolean result. -/
def _check_duplicate_bill (sheets : List (String × List RowStr))
    (store date : String) (total : Dec) : Option Bool :=
  match parse_date date with
  | none => none
  | some iso =>
    let sheet_name := sheet_name_of iso
    match sheets.find? (fun p => p.1 == sheet_name) with
    | none => some false
    | some p =>
      let criteria : BillSearchCriteria :=
        ⟨iso, pyLower (pyStrip store), total, ⟨1, 2⟩⟩
      some (_check_duplicate_in_sheet p.2 criteria)

/-! ### Document model for insertion (`ods_sheets.py`, `ods_rows.py`)

Insertion reads and writes typed cell values through
`get_cell_value`/`set_cell_value` (from the missing `ods_cells`
module), so here cells carry a typed value plus an opaque style
token. -/

/-- A typed cell value: text, number, or empty (§9: a closed tagged
variant; a typed date is surfaced by `get_cell_value` as its ISO text,
per §4.3's two supported date representations). -/
inductive CellValue where
  | vstr (s : String)
  | vnum (q : Dec)
  | vempty
deriving DecidableEq

/-- A cell: typed value plus opaque style reference. -/
structure Cell where
  value : CellValue
  style : Option String
deriving DecidableEq

/-- A row: opaque row style plus its cells. -/
structure Row where
  style : Option String
  cells : List Cell
deriving DecidableEq

/-- A named sheet. -/
structure Sheet where
  name : String
  rows : List Row
deriving DecidableEq

/-- The default cell used when reading past a row's end (never reached
under the explicit length guards mirrored from the source). -/
def emptyCell : Cell := ⟨.vempty, none⟩

/-- Modelled from the spec: `get_cell_value` from the missing
`ods_cells` module returns the cell's value (string, number, or date —
dates as their ISO `date-value` string). -/
def get_cell_value (c : Cell) : CellValue := c.value

/-- Python truthiness-plus-blankness test
`cell_value and str(cell_value).strip()` used on cell values: empty or
whitespace-only text and the number `0.0` are "no data". -/
def hasContent : CellValue → Bool
  | .vstr s => pyStrip s ≠ ""
  | .vnum q => q.mant ≠ 0
  | .vempty => false

/-- `has_existing_data` (`ods_sheets.py`): data in the columns
`range(COL_STORE, COL_TOTAL)` — the TOTAL column itself is not
inspected. -/
def has_existing_data (cells : List Cell) : Bool :=
  (List.range' COL_STORE (COL_TOTAL - COL_STORE)).any fun col_idx =>
    decide (col_idx < cells.length) &&
      hasContent (get_cell_value (cells.getD col_idx emptyCell))

/-- `find_date_row` (`ods_sheets.py`): first row whose DATE cell is a
non-blank string parsing to the target date; parse failures skip the
row. -/
def find_date_row (rows : List Row) (target_iso : String) : Option Nat :=
  rows.findIdx? fun row =>
    let cells := row.cells
    if cells.length ≤ COL_DATE then false
    else
      match get_cell_value (cells.getD COL_DATE emptyCell) with
      | .vstr s =>
        if pyStrip s ≠ "" then
          match parse_date s with
          | some d => d = target_iso
          | none => false
        else false
      | _ => false

/-- The fold body of `_find_last_data_row_and_template` over one
enumerated row. -/
def lastDataStep (acc : Option Nat × Option (List Cell) × Nat) (p : Nat × Row) :
    Option Nat × Option (List Cell) × Nat :=
  let cells := p.2.cells
  if cells.length ≤ COL_TOTAL then acc
  else
    let n := if acc.2.2 < cells.length ∧ cells.length ≤ 10 then cells.length else acc.2.2
    let has_data := (List.range' COL_STORE (COL_TOTAL + 1 - COL_STORE)).any fun col_idx =>
      decide (col_idx < cells.length) &&
        hasContent (get_cell_value (cells.getD col_idx emptyCell))
    if has_data then (some p.1, some cells, n) else (acc.1, acc.2.1, n)

/-- `_find_last_data_row_and_template` (`ods_sheets.py`): index and
cells of the last row holding data in {STORE..TOTAL}, and the cell
count to use for new rows (at least 6; widened by rows of 6..10 cells;
wider rows are skipped by the `<= 10` guard). -/
def _find_last_data_row_and_template (rows : List Row) :
    Option Nat × Option (List Cell) × Nat :=
  rows.enum.foldl lastDataStep (none, none, COL_TOTAL + 1)

/-- `_create_row_with_cells` (`ods_sheets.py`): a fresh row of
`num_cells` cells, cloning per-column styles from the template (never
onto the date column), with the date written into `date_col_idx` when
supplied and empty text elsewhere. -/
def _create_row_with_cells (num_cells : Nat) (template_cells : Option (List Cell))
    (date_col_idx : Option Nat) (new_date : Option String) : Row :=
  ⟨none, (List.range num_cells).map fun col_idx =>
    let style : Option String :=
      match template_cells with
      | some t =>
        if t ≠ [] ∧ col_idx < t.length ∧ some col_idx ≠ date_col_idx then
          (t.getD col_idx emptyCell).style
        else none
      | none => none
    let value : CellValue :=
      match date_col_idx, new_date with
      | some dc, some d => if col_idx = dc then .vstr d else .vstr ""
      | _, _ => .vstr ""
    ⟨value, style⟩⟩

/-- `_find_new_row_index` (`ods_sheets.py`): re-scan for the row whose
DATE cell equals the target ISO string exactly; fall back to the
last row. -/
def _find_new_row_index (rows : List Row) (target_date_iso : String) : Nat :=
  match rows.findIdx? (fun row =>
    let cells := row.cells
    if COL_DATE < cells.length then
      match get_cell_value (cells.getD COL_DATE emptyCell) with
      | .vstr s => s = target_date_iso
      | _ => false
    else false) with
  | some idx => idx
  | none => rows.length - 1

/-- `create_new_date_row` (`ods_sheets.py`): insert a blank separator
row and a new date row after the last data row (or at sheet end) and
return the updated rows together with the new date row's index. -/
def create_new_date_row (rows : List Row) (new_date_iso : String) : List Row × Nat :=
  let fld := _find_last_data_row_and_template rows
  let last_data_row_idx := fld.1
  let template_cells := fld.2.1
  let num_cells_to_create := fld.2.2
  let insert_after_idx :=
    match last_data_row_idx with
    | some i => i
    | none => rows.length - 1
  let blank_row := _create_row_with_cells num_cells_to_create template_cells none none
  let date_row :=
    _create_row_with_cells num_cells_to_create template_cells (some COL_DATE)
      (some new_date_iso)
  let new_rows :=
    rows.take (insert_after_idx + 1) ++ [blank_row, date_row] ++
      rows.drop (insert_after_idx + 1)
  (new_rows, _find_new_row_index new_rows new_date_iso)

/-- An item of a bill record (`items` entries `{name, price}`). -/
structure BillItem where
  name : String
  price : Dec
deriving DecidableEq

/-- A bill record `{store, date, items, total}` as inserted into the
document. -/
structure Bill where
  store : String
  date : String
  items : List BillItem
  total : Dec
deriving DecidableEq

/-- `create_item_row` (`ods_rows.py`): a new row cloning the template
cells' styles, with ITEM and PRICE set, STORE and TOTAL set only when
the corresponding optional argument is supplied and truthy, and empty
text in every other column. -/
def create_item_row (template_cells : List Cell) (template_row_style : Option String)
    (item_name : String) (item_price : Dec) (store_name : Option String)
    (total_price : Option Dec) : Row :=
  ⟨template_row_style, template_cells.mapIdx fun col_idx tc =>
    let style := tc.style
    if col_idx = COL_STORE ∧ store_name.getD "" ≠ "" then
      ⟨.vstr (store_name.getD ""), style⟩
    else if col_idx = COL_ITEM then ⟨.vstr item_name, style⟩
    else if col_idx = COL_PRICE then ⟨.vnum item_price, style⟩
    else if col_idx = COL_TOTAL ∧ (total_price.getD ⟨0, 0⟩).mant ≠ 0 then
      ⟨.vnum (total_price.getD ⟨0, 0⟩), style⟩
    else ⟨.vstr "", style⟩⟩

/-- Modelled from the spec: `save_existing_row_data` from the missing
part of `ods_rows.py` — `snapshotRow` captures each cell's raw value,
type marker and formula text for exact restoration (§4.5); modelled as
the list of cells itself. -/
def save_existing_row_data (cells : List Cell) : List Cell := cells

/-- Modelled from the spec: `restore_row_as_new` from the missing part
of `ods_rows.py` — rebuilds a row from a snapshot, applying the
supplied row style (§4.5). -/
def restore_row_as_new (old_row_data : List Cell) (row_style : Option String) : Row :=
  ⟨row_style, old_row_data⟩

/-- Modelled from the spec: `create_blank_separator_row` from the
missing part of `ods_rows.py` — a blank row cloning the template
cells' styles (§4.3, §4.6f). -/
def create_blank_separator_row (cells : List Cell) (row_style : Option String) : Row :=
  ⟨row_style, cells.map fun c => ⟨.vstr "", c.style⟩⟩

/-- `_write_first_bill_item` (`bill_inserter.py`): write store and the
first item into the target row's cells, clear TOTAL and beyond
(`clear_cell_completely`), and write the total when the bill has
exactly one item. -/
def _write_first_bill_item (cells : List Cell) (bill : Bill) : List Cell :=
  let first_item := bill.items.headD ⟨"", ⟨0, 0⟩⟩
  cells.mapIdx fun col_idx c =>
    if col_idx = COL_STORE then ⟨.vstr bill.store, c.style⟩
    else if col_idx = COL_ITEM then ⟨.vstr first_item.name, c.style⟩
    else if col_idx = COL_PRICE then ⟨.vnum first_item.price, c.style⟩
    else if COL_TOTAL ≤ col_idx then
      if col_idx = COL_TOTAL ∧ bill.items.length = 1 then ⟨.vnum bill.total, c.style⟩
      else ⟨.vempty, c.style⟩
    else c

/-- `_insert_remaining_items` (`bill_inserter.py`): one new row per
item after the first, in order, the last one carrying the bill's
total.  Returns the rows to be placed directly after the target row
(insertion before the fixed reference row preserves this order). -/
def _insert_remaining_items (cells : List Cell) (row_style : Option String)
    (bill : Bill) : List Row :=
  let remaining_items := bill.items.drop 1
  remaining_items.mapIdx fun idx item =>
    let is_last_item := idx = remaining_items.length - 1
    let total := if is_last_item then some bill.total else none
    create_item_row cells row_style item.name item.price none total

/-- `_insert_single_bill_data` (`bill_inserter.py`) on a document given
as a list of sheets: resolve the sheet (skip the bill if absent), find
or create the date row, snapshot prior data when present, overwrite the
target row with the first item, add the remaining item rows, and
relocate snapshotted data below a blank separator.  `none` models the
exception `dparser.parse` raises on an unparsable bill date. -/
def _insert_single_bill_data (doc : List Sheet) (bill : Bill) : Option (List Sheet) :=
  match parse_date bill.date with
  | none => none
  | some iso =>
    let sheet_name := sheet_name_of iso
    match doc.findIdx? (fun sh => sh.name == sheet_name) with
    | none => some doc
    | some si =>
      let sheet := doc.getD si ⟨"", []⟩
      let found := find_date_row sheet.rows iso
      let rows :=
        match found with
        | some _ => sheet.rows
        | none => (create_new_date_row sheet.rows iso).1
      let target_row_idx :=
        match found with
        | some i => i
        | none => (create_new_date_row sheet.rows iso).2
      let target_row := rows.getD target_row_idx ⟨none, []⟩
      let cells := target_row.cells
      let row_style := target_row.style
      let old_data_exists := has_existing_data cells
      let old_row_data := save_existing_row_data cells
      let new_cells := _write_first_bill_item cells bill
      let item_rows := _insert_remaining_items new_cells row_style bill
      let relocated :=
        if old_data_exists then
          [create_blank_separator_row new_cells row_style,
            restore_row_as_new old_row_data row_style]
        else []
      let new_rows :=
        rows.take target_row_idx ++ [⟨row_style, new_cells⟩] ++ item_rows ++ relocated ++
          rows.drop (target_row_idx + 1)
      some (doc.set si ⟨sheet.name, new_rows⟩)

/-! ### Batch processing (`bill_inserter.py`) -/

/-- The sort key of `process_multiple_bills`:
`dparser.parse(bill["date"], dayfirst=True).date()`, encoded as the
number `yyyymmdd` (order-isomorphic to the date).  An unparsable date
raises in the source before any mutation; it is given key 0 here and
is excluded by hypothesis wherever it matters. -/
def dateKey (bill : Bill) : Nat :=
  match parse_date bill.date with
  | some iso => (iso.data.filterMap digit?).foldl (fun acc d => 10 * acc + d) 0
  | none => 0

/-- `sorted(bills_data, key=...)`: Python's stable ascending sort,
modelled by the stable `List.mergeSort`. -/
def sortBills (bills : List Bill) : List Bill :=
  bills.mergeSort fun a b => dateKey a ≤ dateKey b

/-- The in-memory mutation loop of `process_multiple_bills`: insert
every bill of the sorted batch into the loaded document. -/
def insertAllBills (doc : List Sheet) (bills : List Bill) : Option (List Sheet) :=
  (sortBills bills).foldlM _insert_single_bill_data doc

unseal List.mergeSort

unseal List.merge

/-! ### Transaction wrapper (`process_multiple_bills`)

The filesystem side — `create_backup`, `restore_from_backup`,
`remove_backup` from the missing `utils` module, and document
load/save — is modelled over an abstract file-content type `α`: the
backup is a copy of the file's contents, restoring copies them back,
and loading/mutating/saving is an `Except`-valued attempt. -/

/-- A file-system state: the document file's contents and the backup's,
when a backup file exists. -/
structure FileSys (α : Type) where
  file : α
  backup : Option α
deriving DecidableEq

/-- Modelled from the spec: `create_backup` copies the document file to
a backup path (§4.6 step 3). -/
def create_backup {α : Type} (fs : FileSys α) : FileSys α :=
  ⟨fs.file, some fs.file⟩

/-- Modelled from the spec: `restore_from_backup` restores the original
file from the backup (§4.6 step 8); the backup file itself remains
(§6: its presence after a run signals an aborted operation). -/
def restore_from_backup {α : Type} (fs : FileSys α) : FileSys α :=
  ⟨fs.backup.getD fs.file, fs.backup⟩

/-- Modelled from the spec: `remove_backup` deletes the backup after a
successful save (§4.6 step 7). -/
def remove_backup {α : Type} (fs : FileSys α) : FileSys α :=
  ⟨fs.file, none⟩

/-- The body of the `try` block of `process_multiple_bills`: load the
document from the file contents, insert every bill in sorted order,
and save, any step possibly failing. -/
def batchAttempt {α ε δ : Type} (load : α → Except ε δ) (insertB : δ → Bill → Except ε δ)
    (save : δ → Except ε α) (bills : List Bill) (contents : α) : Except ε α := do
  let doc ← load contents
  let doc ← (sortBills bills).foldlM insertB doc
  save doc

/-- `process_multiple_bills` (`bill_inserter.py`): no-op on an empty
batch; otherwise back up the file, attempt load + sorted insertion +
save, remove the backup on success, and on any exception restore the
file from the backup and propagate the exception. -/
def process_multiple_bills {α ε δ : Type} (load : α → Except ε δ)
    (insertB : δ → Bill → Except ε δ) (save : δ → Except ε α)
    (bills_data : List Bill) (fs : FileSys α) : Except ε Unit × FileSys α :=
  if bills_data.isEmpty then (.ok (), fs)
  else
    let fs1 := create_backup fs
    match batchAttempt load insertB save bills_data fs1.file with
    | .ok saved => (.ok (), remove_backup ⟨saved, fs1.backup⟩)
    | .error e => (.error e, restore_from_backup fs1)

/-! ### Validators (`validators.py`)

`validate_bill_total` receives the raw JSON-like record, so its input
is modelled as a Python-value tree. -/

/-- A Python value as appearing in the extracted bill record: string,
number, list, dict, or `None`. -/
inductive PyVal where
  | pstr (s : String)
  | pnum (q : Dec)
  | plist (l : List PyVal)
  | pdict (entries : List (String × PyVal))
  | pnone

/-- Python `dict.get(key)` (default `None`) on a dict given as an
association list. -/
def pyGet (entries : List (String × PyVal)) (key : String) : PyVal :=
  match entries.find? (fun p => p.1 == key) with
  | some p => p.2
  | none => .pnone

/-- `evaluate_price_value` (`validators.py`): numbers pass through;
strings are stripped, commas replaced by dots, and fed to `float(...)`
(`none` on `ValueError`); anything else yields `none`.  Despite its
docstring, it makes no attempt to evaluate a `=...` formula string. -/
def evaluate_price_value (price_value : PyVal) : Option Dec :=
  match price_value with
  | .pnum q => some q
  | .pstr s =>
    parseFloat? (String.mk ((trimChars s.data).map fun c => if c = ',' then '.' else c))
  | _ => none

/-- Python `round(x, 2)`, modelled as half-to-even rounding of the
exact decimal to two places. -/
def pyRound2 (d : Dec) : Dec :=
  if d.exp ≤ 2 then ⟨d.mant * 10 ^ (2 - d.exp), 2⟩
  else
    let k : Int := 10 ^ (d.exp - 2)
    let q := d.mant / k
    let r := d.mant % k
    if 2 * r < k then ⟨q, 2⟩
    else if k < 2 * r then ⟨q + 1, 2⟩
    else if q % 2 = 0 then ⟨q, 2⟩ else ⟨q + 1, 2⟩

/-- Format a decimal with two places (`f"{x:.2f}"`). -/
def decFmt2 (d : Dec) : String :=
  let r := (pyRound2 d).mant
  let n := r.natAbs
  (if r < 0 then "-" else "") ++ String.mk (Nat.toDigits 10 (n / 100)) ++ "." ++
    String.mk (if n % 100 < 10 then '0' :: Nat.toDigits 10 (n % 100)
      else Nat.toDigits 10 (n % 100))

/-- One step of the summation loop of `validate_bill_total`: read the
item's `"item_price"` (`none` when missing or `None`), evaluate it, and
add it; a `none` accumulator (the loop's early `return None`)
propagates.  A non-dict item raises in Python and is outside this
model. -/
def itemSumStep (acc : Option Dec) (item : PyVal) : Option Dec :=
  match acc with
  | none => none
  | some s =>
    match item with
    | .pdict entries =>
      match pyGet entries "item_price" with
      | .pnone => none
      | price =>
        match evaluate_price_value price with
        | none => none
        | some p => some (s.add p)
    | _ => none

/-- The result dictionary built by `validate_bill_total`. -/
structure ValidationResult where
  valid : Bool
  calculated_sum : Dec
  declared_total : Dec
  difference : Dec
  message : String

/-- `validate_bill_total` (`validators.py`): compare the sum of the
items' `"item_price"` values against the declared total with tolerance
`< 0.01`, returning `none` whenever the total is missing, the items
are empty, or any price is missing or unparsable.  (A non-list
`"items"` value or a non-dict item raises in Python and is outside
this model.) -/
def validate_bill_total (bill_data : List (String × PyVal)) : Option ValidationResult :=
  let items : List PyVal :=
    match pyGet bill_data "items" with
    | .plist l => l
    | _ => []
  let declared_total_raw := pyGet bill_data "total"
  let declared_total : PyVal :=
    match declared_total_raw with
    | .plist _ => .pnone
    | v => v
  match declared_total with
  | .pnone => none
  | dtv =>
    if items.isEmpty then none
    else
      let calcSum : Option Dec := items.foldl itemSumStep (some ⟨0, 0⟩)
      match calcSum with
      | none => none
      | some calculated_sum =>
        match evaluate_price_value dtv with
        | none => none
        | some declared_total_value =>
          let difference := Dec.abs (Dec.sub calculated_sum declared_total_value)
          let is_valid := Dec.lt difference ⟨1, 2⟩
          some ⟨is_valid, pyRound2 calculated_sum, pyRound2 declared_total_value,
            pyRound2 difference,
            if is_valid then "✓ Price validation passed"
            else "⚠ Price mismatch: Sum of items (" ++ decFmt2 calculated_sum ++
              "€) != Total (" ++ decFmt2 declared_total_value ++ "€), difference: " ++
              decFmt2 difference ++ "€"⟩

/-! ### Concrete fixtures used by the claim theorems -/

/-- Number of cells in a document holding the given text. -/
def countCellsWithText (sheets : List Sheet) (s : String) : Nat :=
  (sheets.map fun sh =>
    (sh.rows.map fun r =>
      (r.cells.filter fun c => c.value == CellValue.vstr s).length).sum).sum

/-- A stored sheet with one two-row bill group: header (date, store)
then an item row carrying the total `10.00`. -/
def sampleGroupRows : List RowStr :=
  [["", "2025-01-15", "REWE", "", "", ""],
   ["", "", "", "Milk", "1.00", "10.00"]]

/-- A one-sheet document wrapping `sampleGroupRows` under its month
sheet name. -/
def sampleGroupDoc : List (String × List RowStr) :=
  [("Jan 25", sampleGroupRows)]

/-- A target row whose only non-empty column in {STORE..TOTAL} is
TOTAL (text `"99"`), anchored on the date `2025-01-15`. -/
def totalOnlyCells : List Cell :=
  [⟨.vstr "", none⟩, ⟨.vstr "2025-01-15", none⟩, ⟨.vstr "", none⟩,
   ⟨.vstr "", none⟩, ⟨.vstr "", none⟩, ⟨.vstr "99", none⟩]

/-- A document whose `Jan 25` sheet holds only `totalOnlyCells`. -/
def totalOnlyDoc : List Sheet := [⟨"Jan 25", [⟨none, totalOnlyCells⟩]⟩]

/-- A single-item bill dated 2025-01-15. -/
def billJan15 : Bill := ⟨"NewStore", "2025-01-15", [⟨"Apples", ⟨5, 0⟩⟩], ⟨5, 0⟩⟩

/-- A two-item bill dated 2025-01-20. -/
def billJan20 : Bill := ⟨"OtherStore", "2025-01-20", [⟨"Bread", ⟨2, 0⟩⟩, ⟨"Eggs", ⟨3, 0⟩⟩], ⟨5, 0⟩⟩

/-- A single-item bill dated 2025-03-01. -/
def billMar01 : Bill := ⟨"MarchStore", "2025-03-01", [⟨"Cheese", ⟨4, 0⟩⟩], ⟨4, 0⟩⟩

/-- An empty `Jan 25` sheet. -/
def docJanOnly : List Sheet := [⟨"Jan 25", []⟩]

/-- Empty `Jan 25` and `Mar 25` sheets. -/
def docJanMar : List Sheet := [⟨"Jan 25", []⟩, ⟨"Mar 25", []⟩]

/-- One row that is wider than the 10-column guard (12 cells, with
store data). -/
def wideRows : List Row := [⟨none, List.replicate 12 ⟨.vstr "x", none⟩⟩]

/-- A template row of six plain cells with distinct styles. -/
def templateSix : List Cell :=
  [⟨.vstr "", some "s0"⟩, ⟨.vstr "", some "s1"⟩, ⟨.vstr "", some "s2"⟩,
   ⟨.vstr "", some "s3"⟩, ⟨.vstr "", some "s4"⟩, ⟨.vstr "", some "s5"⟩]

/-- A documented-shape bill record: items are `{name, price}` dicts and
a numeric total is declared. -/
def documentedBillRecord : List (String × PyVal) :=
  [("store", .pstr "REWE"), ("date", .pstr "15.01.25"),
   ("items", .plist [.pdict [("name", .pstr "Milk"), ("price", .pstr "1.00")]]),
   ("total", .pnum ⟨1, 0⟩)]

/-! ### Helper lemmas -/

theorem pyLowerChar_pyUpperChar (c : Char) :
    pyLowerChar (pyUpperChar c) = pyLowerChar c := by
  rw [pyUpperChar.eq_def]
  split <;> rfl

theorem isPySpace_pyUpperChar (c : Char) : isPySpace (pyUpperChar c) = isPySpace c := by
  rw [pyUpperChar.eq_def]
  split <;> rfl

theorem trimChars_map {f : Char → Char} (hf : ∀ c, isPySpace (f c) = isPySpace c)
    (l : List Char) : trimChars (l.map f) = (trimChars l).map f := by
  have hcomp : (isPySpace ∘ f) = isPySpace := funext hf
  unfold trimChars
  rw [List.dropWhile_map, hcomp, ← List.map_reverse, List.dropWhile_map, hcomp,
    ← List.map_reverse]

/-- Store-name normalisation ignores ASCII upper-casing of the
candidate. -/
theorem norm_pyUpper (s : String) :
    pyLower (pyStrip (pyUpper s)) = pyLower (pyStrip s) := by
  unfold pyLower pyStrip pyUpper
  simp only [trimChars_map isPySpace_pyUpperChar, List.map_map]
  congr 1
  exact List.map_congr_left fun c _ => pyLowerChar_pyUpperChar c

theorem Dec.beq_self (q : Dec) : Dec.beq q q = true := by
  simp [Dec.beq]

theorem Dec.beq_add_five (q : Dec) : Dec.beq q (q.add ⟨5, 0⟩) = false := by
  have h10 : (0 : Int) < 10 ^ q.exp := pow_pos (by norm_num) _
  simp only [Dec.beq, Dec.add]
  simp only [pow_zero, mul_one, pow_add, beq_eq_false_iff_ne, ne_eq]
  nlinarith

theorem itemSumStep_none (items : List PyVal) :
    items.foldl itemSumStep none = none := by
  induction items with
  | nil => rfl
  | cons i is ih => simpa [itemSumStep] using ih

/-! ### Claim theorems -/

/-- C8: the claim states that price and total fields supplied as plain
numbers or as simple formula-like strings `"=a*b"` / `"=a+b"` always
yield an extracted numeric value from `evaluate_price_value`.  In the
code, `float("=4*0.59")` raises `ValueError`, so `evaluate_price_value`
returns `None` for every formula-form string, contradicting its own
docstring ("which can be a number, string, or formula") and the spec
(§6: "the engine must extract a numeric value from both forms"); only
plain numbers and plain numeric strings are evaluated. -/
theorem C8_formula_prices_yield_none :
    evaluate_price_value (.pstr "=4*0.59") = none ∧
    evaluate_price_value (.pstr "=0.89+0.08") = none ∧
    evaluate_price_value (.pstr "=4*0,59") = none ∧
    evaluate_price_value (.pnum ⟨236, 2⟩) = some ⟨236, 2⟩ ∧
    evaluate_price_value (.pstr "2,36") = some ⟨236, 2⟩ := by
  decide

/-- C10: for every bill record in the documented input shape — items
given as `{name, price}` dictionaries (never carrying an
`"item_price"` key) with at least one item and a declared total —
`validate_bill_total` returns `None`, because it reads each item's
price under the key `"item_price"`. -/
theorem C10_validate_documented_schema_none
    (bill_data entries : List (String × PyVal)) (rest : List PyVal)
    (hitems : pyGet bill_data "items" = .plist (.pdict entries :: rest))
    (hprice : pyGet entries "item_price" = .pnone) :
    validate_bill_total bill_data = none := by
  unfold validate_bill_total
  rw [hitems]
  simp only [List.isEmpty_cons, Bool.false_eq_true, if_false, List.foldl_cons,
    itemSumStep, hprice, itemSumStep_none]
  split <;> rfl

/-- Witness for C10: a concrete documented-shape record (one
`{name, price}` item, numeric total) on which validation returns
`None`. -/
theorem C10_witness : validate_bill_total documentedBillRecord = none :=
  C10_validate_documented_schema_none documentedBillRecord
    [("name", .pstr "Milk"), ("price", .pstr "1.00")] [] rfl rfl

/-- C9 (counterexample): the claim states `create_item_row` sets the
TOTAL cell whenever a `totalPrice` argument is supplied, "for any
supplied numeric value, including 0.0".  With `total_price = 0.0` the
truthiness test `col_idx == COL_TOTAL and total_price` fails and the
TOTAL column is emitted as an empty text cell, not as the number 0.0
(a supplied non-zero total, by contrast, is written). -/
theorem C9_counterexample :
    ((create_item_row templateSix none "Apple" ⟨1, 0⟩ none
        (some ⟨0, 0⟩)).cells.getD COL_TOTAL emptyCell).value = .vstr "" ∧
    CellValue.vstr "" ≠ .vnum ⟨0, 0⟩ ∧
    ((create_item_row templateSix none "Apple" ⟨1, 0⟩ none
        (some ⟨25, 1⟩)).cells.getD COL_TOTAL emptyCell).value = .vnum ⟨25, 1⟩ := by
  decide

/-- C9 (amended): `create_item_row` (with no store name, as invoked
from `_insert_remaining_items`) produces a row with the same column
count as the template cells, cloning each template cell's style; it
sets the ITEM and PRICE cell values, sets the TOTAL cell when and only
when a truthy (non-zero) `totalPrice` is supplied — a supplied 0.0
leaves TOTAL as an empty text cell — and emits every other column as
an empty text cell. -/
theorem C9_item_row_amended (template_cells : List Cell) (row_style : Option String)
    (item_name : String) (item_price : Dec) (total_price : Option Dec) :
    (create_item_row template_cells row_style item_name item_price none
        total_price).style = row_style ∧
    (create_item_row template_cells row_style item_name item_price none
        total_price).cells.length = template_cells.length ∧
    ∀ col, col < template_cells.length →
      (((create_item_row template_cells row_style item_name item_price none
          total_price).cells.getD col emptyCell).style =
        (template_cells.getD col emptyCell).style) ∧
      (col = COL_ITEM →
        ((create_item_row template_cells row_style item_name item_price none
          total_price).cells.getD col emptyCell).value = .vstr item_name) ∧
      (col = COL_PRICE →
        ((create_item_row template_cells row_style item_name item_price none
          total_price).cells.getD col emptyCell).value = .vnum item_price) ∧
      (∀ t, total_price = some t → t.mant ≠ 0 → col = COL_TOTAL →
        ((create_item_row template_cells row_style item_name item_price none
          total_price).cells.getD col emptyCell).value = .vnum t) ∧
      ((total_price.getD ⟨0, 0⟩).mant = 0 → col = COL_TOTAL →
        ((create_item_row template_cells row_style item_name item_price none
          total_price).cells.getD col emptyCell).value = .vstr "") ∧
      (col ≠ COL_ITEM → col ≠ COL_PRICE → col ≠ COL_TOTAL →
        ((create_item_row template_cells row_style item_name item_price none
          total_price).cells.getD col emptyCell).value = .vstr "") := by
  refine ⟨rfl, by simp [create_item_row], ?_⟩
  intro col hcol
  have hlen : (create_item_row template_cells row_style item_name item_price none
      total_price).cells.length = template_cells.length := by
    simp [create_item_row]
  have hcell : (create_item_row template_cells row_style item_name item_price none
      total_price).cells.getD col emptyCell =
      (fun (col_idx : Nat) (tc : Cell) =>
        if col_idx = COL_STORE ∧ ((none : Option String).getD "") ≠ "" then
          (⟨.vstr ((none : Option String).getD ""), tc.style⟩ : Cell)
        else if col_idx = COL_ITEM then ⟨.vstr item_name, tc.style⟩
        else if col_idx = COL_PRICE then ⟨.vnum item_price, tc.style⟩
        else if col_idx = COL_TOTAL ∧ (total_price.getD ⟨0, 0⟩).mant ≠ 0 then
          ⟨.vnum (total_price.getD ⟨0, 0⟩), tc.style⟩
        else ⟨.vstr "", tc.style⟩) col (template_cells.getD col emptyCell) := by
    rw [List.getD_eq_getElem?_getD, List.getElem?_eq_getElem (by rw [hlen]; exact hcol),
      Option.getD_some, List.getD_eq_getElem?_getD, List.getElem?_eq_getElem hcol,
      Option.getD_some]
    exact List.getElem_mapIdx
  rw [hcell]
  simp only [COL_STORE, COL_ITEM, COL_PRICE, COL_TOTAL]
  refine ⟨by split_ifs <;> rfl, ?_, ?_, ?_, ?_, ?_⟩
  · rintro rfl; rfl
  · rintro rfl; rfl
  · rintro t rfl ht rfl; simp [ht]
  · intro h0 hc; subst hc; simp [h0]
  · intro h3 h4 h5
    split_ifs <;> simp_all

/-- Witness for C9: at a six-column template with a non-zero supplied
total, the built row keeps the template width and carries the item
name in the ITEM column. -/
theorem C9_witness :
    ((create_item_row templateSix (some "rs") "Apple" ⟨1, 0⟩ none
        (some ⟨25, 1⟩)).cells.getD COL_ITEM emptyCell).value = .vstr "Apple" :=
  ((C9_item_row_amended templateSix (some "rs") "Apple" ⟨1, 0⟩
    (some ⟨25, 1⟩)).2.2 COL_ITEM (by decide)).2.1 rfl

/-- C5 (counterexample): the claim states a target row is snapshotted
(and later relocated) exactly when it has non-empty data in some
column of {STORE..TOTAL}, in particular when only TOTAL is non-empty.
`has_existing_data` iterates `range(COL_STORE, COL_TOTAL)`, skipping
TOTAL: a row whose only data is the TOTAL text `"99"` reports no
existing data, and inserting a bill onto it destroys the `"99"`
without relocating it (the sheet keeps a single row). -/
theorem C5_counterexample :
    has_existing_data totalOnlyCells = false ∧
    hasContent (get_cell_value (totalOnlyCells.getD COL_TOTAL emptyCell)) = true ∧
    (_insert_single_bill_data totalOnlyDoc billJan15).map
      (fun sheets => countCellsWithText sheets "99") = some 0 ∧
    (_insert_single_bill_data totalOnlyDoc billJan15).map
      (fun sheets => countCellsWithText sheets "NewStore") = some 1 ∧
    (_insert_single_bill_data totalOnlyDoc billJan15).map
      (fun sheets => (sheets.getD 0 ⟨"", []⟩).rows.length) = some 1 := by
  decide

/-- C5 (amended): the target row's prior content is snapshotted exactly
when `has_existing_data` holds, i.e. when the row has non-empty data in
some column of the range {STORE..PRICE} — the TOTAL column is NOT
inspected, so a target row whose only non-empty column is TOTAL is
overwritten without being snapshotted or relocated. -/
theorem C5_has_existing_data_amended (cells : List Cell) :
    has_existing_data cells = true ↔
      ∃ col, COL_STORE ≤ col ∧ col < COL_TOTAL ∧
        hasContent (get_cell_value (cells.getD col emptyCell)) = true := by
  unfold has_existing_data
  rw [List.any_eq_true]
  constructor
  · rintro ⟨i, hi, hcond⟩
    rw [Bool.and_eq_true, decide_eq_true_eq] at hcond
    have hmem := List.mem_range'.mp hi
    simp only [COL_STORE, COL_TOTAL] at hmem ⊢
    exact ⟨i, by omega, by omega, hcond.2⟩
  · rintro ⟨col, h2, h5, hc⟩
    simp only [COL_STORE, COL_TOTAL] at h2 h5
    have hlt : col < cells.length := by
      by_contra hge
      have hnone : cells[col]? = none := List.getElem?_eq_none (by omega)
      rw [List.getD_eq_getElem?_getD, hnone, Option.getD_none] at hc
      simp [emptyCell, get_cell_value, hasContent] at hc
    refine ⟨col, ?_, ?_⟩
    · rw [List.mem_range']
      exact ⟨col - 2, by simp only [COL_STORE, COL_TOTAL]; omega,
        by simp only [COL_STORE, COL_TOTAL]; omega⟩
    · rw [Bool.and_eq_true, decide_eq_true_eq]
      exact ⟨hlt, hc⟩

/-- Witness for C5: a row with item text in the ITEM column does count
as existing data. -/
theorem C5_witness :
    has_existing_data
      [⟨.vstr "", none⟩, ⟨.vstr "", none⟩, ⟨.vstr "", none⟩,
        ⟨.vstr "Milk", none⟩, ⟨.vstr "", none⟩, ⟨.vstr "", none⟩] = true :=
  (C5_has_existing_data_amended _).mpr ⟨COL_ITEM, by decide, by decide, by decide⟩

theorem lastDataStep_num (acc : Option Nat × Option (List Cell) × Nat) (p : Nat × Row) :
    (lastDataStep acc p).2.2 =
      if 5 < p.2.cells.length ∧ p.2.cells.length ≤ 10 ∧ acc.2.2 < p.2.cells.length then
        p.2.cells.length
      else acc.2.2 := by
  unfold lastDataStep
  simp only [COL_TOTAL]
  split_ifs <;> first | rfl | omega

theorem foldl_lastDataStep_num (l : List (Nat × Row)) :
    ∀ acc : Option Nat × Option (List Cell) × Nat,
      acc.2.2 ≤ (l.foldl lastDataStep acc).2.2 ∧
      (l.foldl lastDataStep acc).2.2 ≤ max acc.2.2 10 ∧
      (∀ p ∈ l, 5 < p.2.cells.length → p.2.cells.length ≤ 10 →
        p.2.cells.length ≤ (l.foldl lastDataStep acc).2.2) ∧
      ((l.foldl lastDataStep acc).2.2 = acc.2.2 ∨
        ∃ p ∈ l, p.2.cells.length = (l.foldl lastDataStep acc).2.2) := by
  induction l with
  | nil => simp
  | cons p l ih =>
    intro acc
    rw [List.foldl_cons]
    obtain ⟨ih1, ih2, ih3, ih4⟩ := ih (lastDataStep acc p)
    have hstep := lastDataStep_num acc p
    refine ⟨?_, ?_, ?_, ?_⟩
    · refine le_trans ?_ ih1
      rw [hstep]; split_ifs <;> omega
    · refine le_trans ih2 ?_
      rw [hstep]; split_ifs <;> simp; omega
    · rintro q hq h5 h10
      rcases List.mem_cons.mp hq with rfl | hq'
      · refine le_trans ?_ ih1
        rw [hstep]; split_ifs <;> omega
      · exact ih3 q hq' h5 h10
    · rcases ih4 with heq | ⟨q, hq, hlen⟩
      · rw [heq, hstep]
        split_ifs with hc
        · exact Or.inr ⟨p, by simp, rfl⟩
        · exact Or.inl rfl
      · exact Or.inr ⟨q, by simp [hq], hlen⟩

theorem createRow_length (n : Nat) (t : Option (List Cell)) (dc : Option Nat)
    (nd : Option String) : (_create_row_with_cells n t dc nd).cells.length = n := by
  simp [_create_row_with_cells]

/-- C6 (counterexample): the claim states the new rows' cell count is
the maximum existing row width capped at 10, so a sheet whose widest
row has more than 10 cells should get new rows of exactly 10 cells.
On a sheet whose only row has 12 cells, the `<= 10` guard makes the
scan ignore that row entirely and both created rows get the default 6
cells, not 10. -/
theorem C6_counterexample :
    (_find_last_data_row_and_template wideRows).2.2 = 6 ∧
    ((create_new_date_row wideRows "2025-01-15").1.getD 1 ⟨none, []⟩).cells.length = 6 ∧
    ((create_new_date_row wideRows "2025-01-15").1.getD 2 ⟨none, []⟩).cells.length = 6 ∧
    ¬ ((create_new_date_row wideRows "2025-01-15").1.getD 1 ⟨none, []⟩).cells.length = 10 ∧
    (wideRows.getD 0 ⟨none, []⟩).cells.length = 12 := by
  decide

/-- C6 (amended): `create_new_date_row` creates the blank separator row
and the new date row with a cell count `n` that is at least 6 and at
most 10, is at least the width of every existing row whose width lies
in 6..10, and is either 6 or the width of some existing row; rows wider
than 10 cells are ignored by the width scan (not clamped to 10). -/
theorem C6_new_row_width_amended (rows : List Row) (iso : String) :
    6 ≤ (_find_last_data_row_and_template rows).2.2 ∧
    (_find_last_data_row_and_template rows).2.2 ≤ 10 ∧
    (∀ r ∈ rows, 5 < r.cells.length → r.cells.length ≤ 10 →
      r.cells.length ≤ (_find_last_data_row_and_template rows).2.2) ∧
    ((_find_last_data_row_and_template rows).2.2 = 6 ∨
      ∃ r ∈ rows, r.cells.length = (_find_last_data_row_and_template rows).2.2) ∧
    ∃ k b d, (create_new_date_row rows iso).1 = rows.take k ++ [b, d] ++ rows.drop k ∧
      b.cells.length = (_find_last_data_row_and_template rows).2.2 ∧
      d.cells.length = (_find_last_data_row_and_template rows).2.2 := by
  obtain ⟨h1, h2, h3, h4⟩ := foldl_lastDataStep_num rows.enum (none, none, COL_TOTAL + 1)
  have hn : (_find_last_data_row_and_template rows).2.2 =
      (rows.enum.foldl lastDataStep (none, none, COL_TOTAL + 1)).2.2 := rfl
  refine ⟨by rw [hn]; simpa [COL_TOTAL] using h1, by rw [hn]; simpa [COL_TOTAL] using h2,
    ?_, ?_, ?_⟩
  · intro r hr h5 h10
    obtain ⟨i, hi, hget⟩ := List.mem_iff_getElem.mp hr
    have hmem : (i, r) ∈ rows.enum := by
      rw [List.mk_mem_enum_iff_getElem?, List.getElem?_eq_getElem hi, hget]
    rw [hn]
    exact h3 (i, r) hmem h5 h10
  · rw [hn]
    rcases h4 with heq | ⟨p, hp, hlen⟩
    · exact Or.inl (by simpa [COL_TOTAL] using heq)
    · refine Or.inr ⟨p.2, ?_, hlen⟩
      have hm := List.mem_map_of_mem Prod.snd hp
      rwa [List.enum_map_snd] at hm
  · exact ⟨_, _, _, rfl, createRow_length _ _ _ _, createRow_length _ _ _ _⟩

/-- Witness for C6: on a sheet with one 8-cell data row the computed
width is at least 8 (and the created rows use it). -/
theorem C6_witness :
    8 ≤ (_find_last_data_row_and_template
      [⟨none, List.replicate 8 ⟨.vstr "x", none⟩⟩]).2.2 :=
  (C6_new_row_width_amended [⟨none, List.replicate 8 ⟨.vstr "x", none⟩⟩]
    "2025-01-15").2.2.1 ⟨none, List.replicate 8 ⟨.vstr "x", none⟩⟩
    (by simp) (by decide) (by decide)

/-- C2: if the load / per-bill insertion / save attempt of
`process_multiple_bills` raises (any exception after the backup is
created), the document file is restored from the backup and the
exception is propagated to the caller, so the persisted file is
unchanged by the failed batch; on success the file holds the saved
document once and the backup is deleted. -/
theorem C2_batch_all_or_nothing {α ε δ : Type} (load : α → Except ε δ)
    (insertB : δ → Bill → Except ε δ) (save : δ → Except ε α)
    (bills : List Bill) (fs : FileSys α) (hne : bills ≠ []) :
    (∀ e, batchAttempt load insertB save bills fs.file = .error e →
      process_multiple_bills load insertB save bills fs =
        (.error e, ⟨fs.file, some fs.file⟩)) ∧
    (∀ saved, batchAttempt load insertB save bills fs.file = .ok saved →
      process_multiple_bills load insertB save bills fs =
        (.ok (), ⟨saved, none⟩)) := by
  have hempty : bills.isEmpty = false := by
    cases bills with
    | nil => exact absurd rfl hne
    | cons b bs => rfl
  constructor
  · intro e hatt
    unfold process_multiple_bills
    rw [hempty]
    simp only [Bool.false_eq_true, if_false, create_backup, hatt, restore_from_backup,
      Option.getD_some]
  · intro saved hatt
    unfold process_multiple_bills
    rw [hempty]
    simp only [Bool.false_eq_true, if_false, create_backup, hatt, remove_backup]

/-- Witness for C2: a three-bill batch whose insertion step fails
deterministically on the second bill (by store name) leaves the file
at its original contents `42` with the backup still present; the same
batch with a non-failing insertion step saves and deletes the
backup. -/
theorem C2_witness :
    process_multiple_bills (fun c => .ok c) (fun d b => if b.store = "OtherStore" then .error 9 else .ok (d + 1))
      (fun d => .ok (d * 10)) [billJan15, billJan20, billMar01] (⟨42, none⟩ : FileSys Nat) =
      (.error 9, ⟨42, some 42⟩) ∧
    process_multiple_bills (fun c => (.ok c : Except Nat Nat)) (fun d _ => .ok (d + 1))
      (fun d => .ok (d * 10)) [billJan15, billJan20, billMar01] (⟨42, none⟩ : FileSys Nat) =
      (.ok (), ⟨450, none⟩) :=
  ⟨(C2_batch_all_or_nothing (fun c => .ok c)
      (fun d b => if b.store = "OtherStore" then .error 9 else .ok (d + 1))
      (fun d => .ok (d * 10)) [billJan15, billJan20, billMar01] ⟨42, none⟩
      (by decide)).1 9 rfl,
   (C2_batch_all_or_nothing (fun c => (.ok c : Except Nat Nat)) (fun d _ => .ok (d + 1))
      (fun d => .ok (d * 10)) [billJan15, billJan20, billMar01] ⟨42, none⟩
      (by decide)).2 450 rfl⟩

/-- C7: `_check_duplicate_bill` (isDuplicate) gives the same result for
the candidate's store string and for any variant of it differing only
up to the case/whitespace normalisation `strip().lower()`; in
particular upper-casing the store never changes the result. -/
theorem C7_store_normalisation
    (sheets : List (String × List RowStr)) (date : String) (total : Dec) :
    (∀ store variant, pyLower (pyStrip variant) = pyLower (pyStrip store) →
      _check_duplicate_bill sheets variant date total =
        _check_duplicate_bill sheets store date total) ∧
    (∀ store, _check_duplicate_bill sheets (pyUpper store) date total =
      _check_duplicate_bill sheets store date total) := by
  have key : ∀ store variant, pyLower (pyStrip variant) = pyLower (pyStrip store) →
      _check_duplicate_bill sheets variant date total =
        _check_duplicate_bill sheets store date total := by
    intro store variant hnorm
    unfold _check_duplicate_bill
    rw [hnorm]
  exact ⟨key, fun store => key store (pyUpper store) (norm_pyUpper store)⟩

/-- Witness for C7: on a stored `REWE` bill the check returns one and
the same result for `" REWE "` and `"rewe"`. -/
theorem C7_witness :
    _check_duplicate_bill sampleGroupDoc " REWE " "15.01.25" ⟨10, 0⟩ =
      _check_duplicate_bill sampleGroupDoc "rewe" "15.01.25" ⟨10, 0⟩ :=
  (C7_store_normalisation sampleGroupDoc "15.01.25" ⟨10, 0⟩).1 "rewe" " REWE " (by decide)

/-- C1 (counterexample): the claim states the stored group's total is
compared to the candidate's with absolute-difference tolerance
`< 0.01`, so a stored total of 10.00 against a candidate total of
10.009 (difference 0.009) must make isDuplicate return true.  The
duplicate path (`_find_total_in_bill_group`) compares with exact float
equality and returns false; the tolerance comparison only lives in the
never-invoked helper `_check_bill_match`, which would accept this
pair. -/
theorem C1_counterexample :
    _check_duplicate_in_sheet sampleGroupRows
      ⟨"2025-01-15", "rewe", ⟨10009, 3⟩, ⟨1, 2⟩⟩ = false ∧
    Dec.lt (Dec.abs (Dec.sub ⟨10009, 3⟩ ⟨1000, 2⟩)) ⟨1, 2⟩ = true ∧
    _check_bill_match "rewe" ⟨1000, 2⟩ ⟨"2025-01-15", "rewe", ⟨10009, 3⟩, ⟨1, 2⟩⟩ = true ∧
    _check_duplicate_in_sheet sampleGroupRows
      ⟨"2025-01-15", "rewe", ⟨1000, 2⟩, ⟨1, 2⟩⟩ = true := by
  decide

/-- C1 (amended): for a stored bill group whose header row carries the
candidate's date and whose store matches the candidate's (case-folded,
trimmed), the group's total is compared to the candidate's total by
exact float equality, not by tolerance: the check returns true exactly
when the stored total equals the candidate's, so a stored total
differing by 0.009 — like one differing by exactly 0.01 — makes
isDuplicate return false.  (The tolerance comparator exists in
`_check_bill_match` but is never invoked on the duplicate path.) -/
theorem C1_exact_total_equality (D S I P T : String) (q qc : Dec) (dIso : String)
    (hD : parse_date D = some dIso) (hS : S ≠ "") (hT : T ≠ "")
    (hq : extract_total T = some q) :
    _check_duplicate_in_sheet
      [["", D, S, "", "", ""], ["", "", "", I, P, T]]
      ⟨dIso, pyLower (pyStrip S), qc, ⟨1, 2⟩⟩ = Dec.beq q qc := by
  have hDne : D ≠ "" := by
    intro h
    rw [h] at hD
    simp [show parse_date "" = none from rfl] at hD
  have hmd0 : _has_matching_date ["", D, S, "", "", ""] dIso = true := by
    unfold _has_matching_date
    simp [COL_DATE, hDne, hD]
  have hmd1 : _has_matching_date ["", "", "", I, P, T] dIso = false := rfl
  have hstore0 : storeStep [["", D, S, "", "", ""], ["", "", "", I, P, T]] 0
      (pyLower (pyStrip S)) 0 = some (some 0) := by
    unfold storeStep
    simp [COL_STORE, COL_DATE, hS]
  have hstore1c : storeStep [["", D, S, "", "", ""], ["", "", "", I, P, T]] 1
      (pyLower (pyStrip S)) 1 = none := by
    unfold storeStep
    simp [COL_STORE, COL_DATE]
  have hget0 : _get_store_from_bill_start [["", D, S, "", "", ""], ["", "", "", I, P, T]] 0
      (pyLower (pyStrip S)) = some 0 := by
    unfold _get_store_from_bill_start
    rw [show List.range' 0 ([["", D, S, "", "", ""], ["", "", "", I, P, T]].length - 0) =
      [0, 1] from rfl]
    rw [scanHit, hstore0]
  have hget1 : _get_store_from_bill_start [["", D, S, "", "", ""], ["", "", "", I, P, T]] 1
      (pyLower (pyStrip S)) = none := by
    unfold _get_store_from_bill_start
    rw [show List.range' 1 ([["", D, S, "", "", ""], ["", "", "", I, P, T]].length - 1) =
      [1] from rfl]
    rw [scanHit, hstore1c]
    rfl
  have htot0 : totalStep [["", D, S, "", "", ""], ["", "", "", I, P, T]] 0 qc 0 = none := by
    unfold totalStep
    simp [COL_TOTAL, COL_DATE, COL_STORE]
  have htot1 : totalStep [["", D, S, "", "", ""], ["", "", "", I, P, T]] 0 qc 1 =
      (if Dec.beq q qc then some (some 1) else some none) := by
    unfold totalStep
    simp [COL_TOTAL, COL_DATE, COL_STORE, hT, hq]
  have hfind : _find_total_in_bill_group [["", D, S, "", "", ""], ["", "", "", I, P, T]] 0 qc =
      (if Dec.beq q qc then some 1 else none) := by
    unfold _find_total_in_bill_group
    rw [show List.range' 0 ([["", D, S, "", "", ""], ["", "", "", I, P, T]].length - 0) =
      [0, 1] from rfl]
    rw [scanHit, htot0, scanHit, htot1]
    split_ifs <;> rfl
  have hloop0 : dupLoop [["", D, S, "", "", ""], ["", "", "", I, P, T]]
      ⟨dIso, pyLower (pyStrip S), qc, ⟨1, 2⟩⟩ 0 = Dec.beq q qc := by
    rw [dupLoop, hget0]
    simp only [hfind]
    split_ifs with hbeq
    · simp [hbeq]
    · rw [dupLoop, hget1]
      simp [hbeq, Bool.not_eq_true] at *
  unfold _check_duplicate_in_sheet
  rw [show List.range [["", D, S, "", "", ""], ["", "", "", I, P, T]].length = [0, 1] from rfl]
  simp only [List.any_cons, List.any_nil, _process_bill_row_for_duplicate]
  rw [show List.getD [["", D, S, "", "", ""], ["", "", "", I, P, T]] 0 [] =
    ["", D, S, "", "", ""] from rfl]
  rw [show List.getD [["", D, S, "", "", ""], ["", "", "", I, P, T]] 1 [] =
    ["", "", "", I, P, T] from rfl]
  rw [hmd0, hmd1]
  simp [hloop0]

/-- Witness for C1: a stored group (header 2025-01-15 / REWE, total
text "10.00") against a candidate with the equal total 10.00: the
check evaluates to the exact-equality comparison of the two totals. -/
theorem C1_witness :
    _check_duplicate_in_sheet sampleGroupRows
      ⟨"2025-01-15", pyLower (pyStrip "REWE"), ⟨1000, 2⟩, ⟨1, 2⟩⟩ =
      Dec.beq ⟨1000, 2⟩ ⟨1000, 2⟩ :=
  C1_exact_total_equality "2025-01-15" "REWE" "Milk" "1.00" "10.00" ⟨1000, 2⟩ ⟨1000, 2⟩
    "2025-01-15" (by decide) (by decide) (by decide) (by decide)

theorem boundary_scan_eq (D S I2 P2 I3 P3 D2 T : String) (q qc : Dec)
    (dIso d2Iso : String)
    (hD : parse_date D = some dIso) (hS : S ≠ "") (hT : T ≠ "")
    (hq : extract_total T = some q) (hD2 : parse_date D2 = some d2Iso)
    (hne : d2Iso ≠ dIso) :
    _check_duplicate_in_sheet
      [["", D, S, "", "", ""], ["", "", "", I2, P2, ""], ["", "", "", I3, P3, T],
        ["", D2, "", "", "", ""]]
      ⟨dIso, pyLower (pyStrip S), qc, ⟨1, 2⟩⟩ = Dec.beq q qc := by
  have hDne : D ≠ "" := by
    intro h
    rw [h] at hD
    simp [show parse_date "" = none from rfl] at hD
  have hD2ne : D2 ≠ "" := by
    intro h
    rw [h] at hD2
    simp [show parse_date "" = none from rfl] at hD2
  have hmd0 : _has_matching_date ["", D, S, "", "", ""] dIso = true := by
    unfold _has_matching_date
    simp [COL_DATE, hDne, hD]
  have hmd1 : _has_matching_date ["", "", "", I2, P2, ""] dIso = false := rfl
  have hmd2 : _has_matching_date ["", "", "", I3, P3, T] dIso = false := rfl
  have hmd3 : _has_matching_date ["", D2, "", "", "", ""] dIso = false := by
    unfold _has_matching_date
    simp [COL_DATE, hD2ne, hD2, hne]
  have hstore0 : storeStep
      [["", D, S, "", "", ""], ["", "", "", I2, P2, ""], ["", "", "", I3, P3, T],
        ["", D2, "", "", "", ""]] 0 (pyLower (pyStrip S)) 0 = some (some 0) := by
    unfold storeStep
    simp [COL_STORE, COL_DATE, hS]
  have hget0 : _get_store_from_bill_start
      [["", D, S, "", "", ""], ["", "", "", I2, P2, ""], ["", "", "", I3, P3, T],
        ["", D2, "", "", "", ""]] 0 (pyLower (pyStrip S)) = some 0 := by
    unfold _get_store_from_bill_start
    rw [show List.range' 0 ([["", D, S, "", "", ""], ["", "", "", I2, P2, ""],
      ["", "", "", I3, P3, T], ["", D2, "", "", "", ""]].length - 0) = [0, 1, 2, 3] from rfl]
    rw [scanHit, hstore0]
  have hstore13 : storeStep
      [["", D, S, "", "", ""], ["", "", "", I2, P2, ""], ["", "", "", I3, P3, T],
        ["", D2, "", "", "", ""]] 1 (pyLower (pyStrip S)) 3 = some none := by
    unfold storeStep
    simp [COL_STORE, COL_DATE, hD2ne]
  have hget1 : _get_store_from_bill_start
      [["", D, S, "", "", ""], ["", "", "", I2, P2, ""], ["", "", "", I3, P3, T],
        ["", D2, "", "", "", ""]] 1 (pyLower (pyStrip S)) = none := by
    unfold _get_store_from_bill_start
    rw [show List.range' 1 ([["", D, S, "", "", ""], ["", "", "", I2, P2, ""],
      ["", "", "", I3, P3, T], ["", D2, "", "", "", ""]].length - 1) = [1, 2, 3] from rfl]
    rw [scanHit, show storeStep
      [["", D, S, "", "", ""], ["", "", "", I2, P2, ""], ["", "", "", I3, P3, T],
        ["", D2, "", "", "", ""]] 1 (pyLower (pyStrip S)) 1 = none from rfl]
    rw [scanHit, show storeStep
      [["", D, S, "", "", ""], ["", "", "", I2, P2, ""], ["", "", "", I3, P3, T],
        ["", D2, "", "", "", ""]] 1 (pyLower (pyStrip S)) 2 = none from rfl]
    rw [scanHit, hstore13]
  have htot2 : totalStep
      [["", D, S, "", "", ""], ["", "", "", I2, P2, ""], ["", "", "", I3, P3, T],
        ["", D2, "", "", "", ""]] 0 qc 2 =
      (if Dec.beq q qc then some (some 2) else some none) := by
    unfold totalStep
    simp [COL_TOTAL, COL_DATE, COL_STORE, hT, hq]
  have hfind : _find_total_in_bill_group
      [["", D, S, "", "", ""], ["", "", "", I2, P2, ""], ["", "", "", I3, P3, T],
        ["", D2, "", "", "", ""]] 0 qc = (if Dec.beq q qc then some 2 else none) := by
    unfold _find_total_in_bill_group
    rw [show List.range' 0 ([["", D, S, "", "", ""], ["", "", "", I2, P2, ""],
      ["", "", "", I3, P3, T], ["", D2, "", "", "", ""]].length - 0) = [0, 1, 2, 3] from rfl]
    rw [scanHit, show totalStep
      [["", D, S, "", "", ""], ["", "", "", I2, P2, ""], ["", "", "", I3, P3, T],
        ["", D2, "", "", "", ""]] 0 qc 0 = none from rfl]
    rw [scanHit, show totalStep
      [["", D, S, "", "", ""], ["", "", "", I2, P2, ""], ["", "", "", I3, P3, T],
        ["", D2, "", "", "", ""]] 0 qc 1 = none from rfl]
    rw [scanHit, htot2]
    split_ifs <;> rfl
  have hloop0 : dupLoop
      [["", D, S, "", "", ""], ["", "", "", I2, P2, ""], ["", "", "", I3, P3, T],
        ["", D2, "", "", "", ""]] ⟨dIso, pyLower (pyStrip S), qc, ⟨1, 2⟩⟩ 0 =
      Dec.beq q qc := by
    rw [dupLoop, hget0]
    simp only [hfind]
    split_ifs with hbeq
    · simp [hbeq]
    · rw [dupLoop, hget1]
      simp [hbeq, Bool.not_eq_true] at *
  unfold _check_duplicate_in_sheet
  rw [show List.range [["", D, S, "", "", ""], ["", "", "", I2, P2, ""],
    ["", "", "", I3, P3, T], ["", D2, "", "", "", ""]].length = [0, 1, 2, 3] from rfl]
  simp only [List.any_cons, List.any_nil, _process_bill_row_for_duplicate]
  rw [show List.getD [["", D, S, "", "", ""], ["", "", "", I2, P2, ""],
    ["", "", "", I3, P3, T], ["", D2, "", "", "", ""]] 0 [] = ["", D, S, "", "", ""] from rfl]
  rw [show List.getD [["", D, S, "", "", ""], ["", "", "", I2, P2, ""],
    ["", "", "", I3, P3, T], ["", D2, "", "", "", ""]] 1 [] =
    ["", "", "", I2, P2, ""] from rfl]
  rw [show List.getD [["", D, S, "", "", ""], ["", "", "", I2, P2, ""],
    ["", "", "", I3, P3, T], ["", D2, "", "", "", ""]] 2 [] =
    ["", "", "", I3, P3, T] from rfl]
  rw [show List.getD [["", D, S, "", "", ""], ["", "", "", I2, P2, ""],
    ["", "", "", I3, P3, T], ["", D2, "", "", "", ""]] 3 [] =
    ["", D2, "", "", "", ""] from rfl]
  rw [hmd0, hmd1, hmd2, hmd3]
  simp [hloop0]

/-- C3: for a sheet holding, in order, a header row with date D and
store S, an item row, an item row carrying total T, and then a row
with a different date D2, isDuplicate for the candidate {D, S, T}
returns true, and for {D, S, T + 5} returns false: the total mismatch
aborts the scan at the group boundary and the resumed store search
stops at D2's row before reaching D2's group. -/
theorem C3_group_boundary (D S I2 P2 I3 P3 D2 T : String) (q : Dec) (dIso d2Iso : String)
    (hD : parse_date D = some dIso) (hS : S ≠ "") (hT : T ≠ "")
    (hq : extract_total T = some q) (hD2 : parse_date D2 = some d2Iso)
    (hne : d2Iso ≠ dIso) :
    _check_duplicate_in_sheet
      [["", D, S, "", "", ""], ["", "", "", I2, P2, ""], ["", "", "", I3, P3, T],
        ["", D2, "", "", "", ""]]
      ⟨dIso, pyLower (pyStrip S), q, ⟨1, 2⟩⟩ = true ∧
    _check_duplicate_in_sheet
      [["", D, S, "", "", ""], ["", "", "", I2, P2, ""], ["", "", "", I3, P3, T],
        ["", D2, "", "", "", ""]]
      ⟨dIso, pyLower (pyStrip S), q.add ⟨5, 0⟩, ⟨1, 2⟩⟩ = false := by
  constructor
  · rw [boundary_scan_eq D S I2 P2 I3 P3 D2 T q q dIso d2Iso hD hS hT hq hD2 hne]
    exact Dec.beq_self q
  · rw [boundary_scan_eq D S I2 P2 I3 P3 D2 T q (q.add ⟨5, 0⟩) dIso d2Iso hD hS hT hq hD2 hne]
    exact Dec.beq_add_five q

/-- Witness for C3: the concrete sheet [2025-01-12/REWE header, two
item rows with total "10.00", then a 2025-01-13 row]: candidate total
10.00 is a duplicate, candidate total 15.00 is not. -/
theorem C3_witness :
    _check_duplicate_in_sheet
      [["", "2025-01-12", "REWE", "", "", ""], ["", "", "", "Milk", "1.00", ""],
        ["", "", "", "Eggs", "9.00", "10.00"], ["", "2025-01-13", "", "", "", ""]]
      ⟨"2025-01-12", pyLower (pyStrip "REWE"), ⟨1000, 2⟩, ⟨1, 2⟩⟩ = true ∧
    _check_duplicate_in_sheet
      [["", "2025-01-12", "REWE", "", "", ""], ["", "", "", "Milk", "1.00", ""],
        ["", "", "", "Eggs", "9.00", "10.00"], ["", "2025-01-13", "", "", "", ""]]
      ⟨"2025-01-12", pyLower (pyStrip "REWE"), Dec.add ⟨1000, 2⟩ ⟨5, 0⟩, ⟨1, 2⟩⟩ = false :=
  C3_group_boundary "2025-01-12" "REWE" "Milk" "1.00" "Eggs" "9.00" "2025-01-13" "10.00"
    ⟨1000, 2⟩ "2025-01-12" "2025-01-13" (by decide) (by decide) (by decide) (by decide)
    (by decide) (by decide)

/-- C4 (counterexample): the claim concludes that for a batch dated
2025-01-15 and 2025-03-01 the 01-15 row precedes the 03-01 row "in the
sheet" after processing.  The two dates resolve to different month
sheets ("Jan 25" and "Mar 25"), so after processing the batch into a
document carrying both sheets, no sheet contains both rows (each row
exists in its own sheet), and the claimed within-sheet precedence
relation never materialises. -/
theorem C4_counterexample :
    ((insertAllBills docJanMar [billMar01, billJan15]).map fun sheets =>
      sheets.any fun sh => (find_date_row sh.rows "2025-01-15").isSome &&
        (find_date_row sh.rows "2025-03-01").isSome) = some false ∧
    ((insertAllBills docJanMar [billMar01, billJan15]).map fun sheets =>
      (sheets.any fun sh => (find_date_row sh.rows "2025-01-15").isSome) &&
        (sheets.any fun sh => (find_date_row sh.rows "2025-03-01").isSome)) = some true := by
  decide

/-- C4 (amended): `process_multiple_bills` processes the bills of a
batch in ascending order of their parsed dates with a stable sort
(equal dates keep input order); for the batch {2025-01-15, 2025-03-01}
in either input order the 2025-01-15 bill is processed first, but the
two rows land in different month sheets, so the within-sheet
consequence holds for batches sharing a sheet: bills dated 2025-01-15
and 2025-01-20 submitted in either input order leave the 01-15 row
before the 01-20 row in the "Jan 25" sheet. -/
theorem C4_sorted_batch_amended :
    (∀ bills : List Bill, (sortBills bills).Sorted fun a b => dateKey a ≤ dateKey b) ∧
    (∀ (bills : List Bill) (a b : Bill), dateKey a = dateKey b →
      [a, b].Sublist bills → [a, b].Sublist (sortBills bills)) ∧
    sortBills [billMar01, billJan15] = [billJan15, billMar01] ∧
    sortBills [billJan15, billMar01] = [billJan15, billMar01] ∧
    ((insertAllBills docJanOnly [billJan20, billJan15]).map fun sheets =>
      match find_date_row (sheets.getD 0 ⟨"", []⟩).rows "2025-01-15",
            find_date_row (sheets.getD 0 ⟨"", []⟩).rows "2025-01-20" with
      | some i, some j => decide (i < j)
      | _, _ => false) = some true ∧
    ((insertAllBills docJanOnly [billJan15, billJan20]).map fun sheets =>
      match find_date_row (sheets.getD 0 ⟨"", []⟩).rows "2025-01-15",
            find_date_row (sheets.getD 0 ⟨"", []⟩).rows "2025-01-20" with
      | some i, some j => decide (i < j)
      | _, _ => false) = some true := by
  have htrans : ∀ a b c : Bill, decide (dateKey a ≤ dateKey b) = true →
      decide (dateKey b ≤ dateKey c) = true → decide (dateKey a ≤ dateKey c) = true := by
    intro a b c h1 h2
    rw [decide_eq_true_eq] at *
    omega
  have htotal : ∀ a b : Bill,
      (decide (dateKey a ≤ dateKey b) || decide (dateKey b ≤ dateKey a)) = true := by
    intro a b
    rcases Nat.le_total (dateKey a) (dateKey b) with h | h <;> simp [h]
  refine ⟨?_, ?_, by decide, by decide, by decide, by decide⟩
  · intro bills
    have hp := @List.sorted_mergeSort Bill (fun a b => decide (dateKey a ≤ dateKey b))
      htrans htotal bills
    exact hp.imp fun h => of_decide_eq_true h
  · intro bills a b hk hsub
    refine List.sublist_mergeSort htrans htotal ?_ hsub
    simp [List.pairwise_cons, hk]

/-- Witness for C4: two bills with the same parsed date (one in ISO
form, one in day-first form) submitted behind a later-dated bill keep
their relative input order in the sorted batch. -/
theorem C4_witness :
    [billJan15, ⟨"TieStore", "15.01.25", [⟨"Tea", ⟨2, 0⟩⟩], ⟨2, 0⟩⟩].Sublist
      (sortBills [billMar01, billJan15,
        ⟨"TieStore", "15.01.25", [⟨"Tea", ⟨2, 0⟩⟩], ⟨2, 0⟩⟩]) :=
  C4_sorted_batch_amended.2.1
    [billMar01, billJan15, ⟨"TieStore", "15.01.25", [⟨"Tea", ⟨2, 0⟩⟩], ⟨2, 0⟩⟩]
    billJan15 ⟨"TieStore", "15.01.25", [⟨"Tea", ⟨2, 0⟩⟩], ⟨2, 0⟩⟩
    (by decide) ((List.sublist_cons_self _ _).trans (List.Sublist.refl _) |>.trans
      (List.Sublist.refl _))

end BillAnalyzer
